import Mathlib

/-!
Shallow embedding of the weather-forecast web application (`app.py`) and
verification of its specification claims.

The application fetches a multi-day forecast from a JSON HTTP API, enriches
each forecast day with a rendered hourly chart and a pretty-printed date,
classifies the current conditions into a background theme, and renders a
template.  Python dictionaries/JSON values are modelled by the inductive
type `JVal`; fallible Python code (code that can raise an uncaught
exception) is modelled in the `Except String` monad; the network call is
abstracted by an `HttpOutcome` value describing what `requests.get`
produced.

Modelling conventions:
* JSON numbers keep their literal text (`JVal.num lit`); no claim inspects
  numeric values arithmetically, and this avoids committing to a
  floating-point semantics.  Literals are assumed to be in the canonical
  form produced by JSON serialisation of the provider.
* Python `str`/`dict`/`list` truthiness is modelled by `jTruthy`.
* Object keys are assumed distinct (Python's `json` module collapses
  duplicate keys), and values form trees (no aliasing), so in-place
  mutation is modelled by functional update.
* Text functions (`str.lower`, `str.strip`, `str.isalnum`) are modelled at
  ASCII fidelity; the Python originals are Unicode-aware, but every claim
  is about ASCII texts.
-/

namespace WApp

/-- A JSON value / Python object, as produced by `resp.json()`.
`num` stores the numeric literal text. -/
inductive JVal where
  | null
  | bool (b : Bool)
  | num (lit : String)
  | str (s : String)
  | arr (xs : List JVal)
  | obj (fields : List (String × JVal))

/-- Truthiness of a numeric literal: a number is falsy exactly when it is
zero, i.e. when its literal has no non-zero digit. -/
def numTruthy (lit : String) : Bool :=
  lit.data.any (fun c => c.isDigit && c != '0')

/-- Python truthiness of a value (`if not x: ...`). -/
def jTruthy : JVal → Bool
  | .null => false
  | .bool b => b
  | .num lit => numTruthy lit
  | .str s => !s.isEmpty
  | .arr xs => !xs.isEmpty
  | .obj fs => !fs.isEmpty

/-- First binding of a key in an object's field list (keys are assumed
distinct, so first = only). -/
def dictGet? : List (String × JVal) → String → Option JVal
  | [], _ => none
  | (k', v) :: fs, k => if k' = k then some v else dictGet? fs k

/-- Python `d[k] = v`: replace the binding in place, or append a new one. -/
def dictSet : List (String × JVal) → String → JVal → List (String × JVal)
  | [], k, v => [(k, v)]
  | (k', v') :: fs, k, v =>
    if k' = k then (k, v) :: fs else (k', v') :: dictSet fs k v

/-- Python `d.get(k, default)`.  Raises `AttributeError` when the receiver
is not a dict. -/
def pyGetE (j : JVal) (k : String) (d : JVal) : Except String JVal :=
  match j with
  | .obj fs => .ok ((dictGet? fs k).getD d)
  | _ => .error "AttributeError: value has no method get"

/-- Python subscription `j[k]` by a string key, with both `KeyError`
(missing key) and `TypeError` (non-dict receiver) collapsed to `none`;
the only caller catches exactly those two exceptions. -/
def pyItem? (j : JVal) (k : String) : Option JVal :=
  match j with
  | .obj fs => dictGet? fs k
  | _ => none

/-- Is the value a JSON object / Python dict? -/
def isObj : JVal → Bool
  | .obj _ => true
  | _ => false

/-- Two-step subscription `j[k1][k2]`, failure collapsed to `none`. -/
def pyItem2? (j : JVal) (k1 k2 : String) : Option JVal :=
  (pyItem? j k1).bind (fun x => pyItem? x k2)

/-- `j[k] = v` on a dict value, identity otherwise (only applied to dicts). -/
def jSet (j : JVal) (k : String) (v : JVal) : JVal :=
  match j with
  | .obj fs => .obj (dictSet fs k v)
  | _ => j

/-- Does `needle` occur at the start of `hay`? -/
def listStarts : List Char → List Char → Bool
  | [], _ => true
  | _ :: _, [] => false
  | a :: as, b :: bs => a = b && listStarts as bs

/-- Substring occurrence on character lists (Python `needle in hay`). -/
def hasSub (hay needle : List Char) : Bool :=
  match hay with
  | [] => listStarts needle []
  | c :: t => listStarts needle (c :: t) || hasSub t needle

/-- Python `needle in hay` for strings. -/
def strContains (hay needle : String) : Bool :=
  hasSub hay.data needle.data

/-- Python `str.lower()` (ASCII fidelity). -/
def lowerStr (s : String) : String :=
  ⟨s.data.map Char.toLower⟩

/-- The characters stripped by Python `str.strip()` (ASCII whitespace). -/
def isPySpace (c : Char) : Bool :=
  c = ' ' || c = '\t' || c = '\n' || c = '\r' || c = '\x0b' || c = '\x0c'

/-- Strip leading and trailing whitespace from a character list. -/
def stripChars (cs : List Char) : List Char :=
  ((cs.dropWhile isPySpace).reverse.dropWhile isPySpace).reverse

/-- Python `str.strip()`. -/
def pyStrip (s : String) : String :=
  ⟨stripChars s.data⟩

/-- Python `str()` of a value, as used by f-string interpolation and by
`str(...)` in `derive_bg_class`.  Scalar cases are exact; for the two
container cases Python would render the container's `repr`, which no claim
depends on, so they are abbreviated to fixed marker texts. -/
def pyStr : JVal → String
  | .null => "None"
  | .bool true => "True"
  | .bool false => "False"
  | .num lit => lit
  | .str s => s
  | .arr _ => "[...]"
  | .obj _ => "\x7b...\x7d"

/-- Left-to-right effectful map with exception abort, the semantics of a
Python list comprehension whose body may raise. -/
def listMapE {α β : Type} (f : α → Except String β) : List α → Except String (List β)
  | [] => .ok []
  | x :: xs => do
    let y ← f x
    let ys ← listMapE f xs
    .ok (y :: ys)

/-- Digits of a Python integer literal after the optional sign: digits with
single underscores allowed between digits (`int("1_0") = 10`).
`acc` is the value of the digits consumed so far. -/
def pyDigits (acc : Nat) : List Char → Option Nat
  | [] => some acc
  | '_' :: c :: rest =>
    if c.isDigit then pyDigits (acc * 10 + (c.toNat - 48)) rest else none
  | c :: rest =>
    if c.isDigit then pyDigits (acc * 10 + (c.toNat - 48)) rest else none

/-- Digit run that must start with a digit (no leading underscore). -/
def pyDigitsStart : List Char → Option Nat
  | [] => none
  | c :: rest => if c.isDigit then pyDigits (c.toNat - 48) rest else none

/-- Python `int(s)`: optional surrounding whitespace, optional sign, then a
non-empty digit run; `none` models the `ValueError` the caller catches. -/
def pyInt (s : String) : Option Int :=
  match stripChars s.data with
  | '+' :: rest => (pyDigitsStart rest).map (fun n => (n : Int))
  | '-' :: rest => (pyDigitsStart rest).map (fun n => -(n : Int))
  | cs => (pyDigitsStart cs).map (fun n => (n : Int))

/-- Split a character list on every occurrence of `sep` (Python
`str.split(sep)` for a one-character separator). -/
def splitOnChar (sep : Char) : List Char → List (List Char)
  | [] => [[]]
  | c :: rest =>
    if c = sep then [] :: splitOnChar sep rest
    else
      match splitOnChar sep rest with
      | g :: gs => (c :: g) :: gs
      | [] => [[c]]

/-- Value of a list of decimal digit characters. -/
def natOfDigits (cs : List Char) : Nat :=
  cs.foldl (fun a c => a * 10 + (c.toNat - 48)) 0

/-- Gregorian leap year, as implemented by `datetime`. -/
def isLeap (y : Nat) : Bool :=
  y % 4 = 0 && (y % 100 != 0 || y % 400 = 0)

/-- Number of days of month `m` of year `y` (`datetime` validation). -/
def daysInMonth (y m : Nat) : Nat :=
  if m = 2 then (if isLeap y then 29 else 28)
  else if m = 4 || m = 6 || m = 9 || m = 11 then 30
  else 31

/-- `datetime.strptime(s, "%Y-%m-%d")`, returning `(year, month, day)`.
Python's `%Y` matches exactly four digits, `%m` and `%d` one or two digits,
the literal `-` separates them, the whole string must be consumed, and the
`datetime` constructor then validates `1 <= year`, `1 <= month <= 12` and
`1 <= day <= daysInMonth` (a violation raises `ValueError`, which the
caller catches). -/
def checkYMD (ys ms ds : List Char) : Option (Nat × Nat × Nat) :=
  if ys.length = 4 ∧ ys.all Char.isDigit = true
      ∧ (ms.length = 1 ∨ ms.length = 2) ∧ ms.all Char.isDigit = true
      ∧ (ds.length = 1 ∨ ds.length = 2) ∧ ds.all Char.isDigit = true then
    let y := natOfDigits ys
    let m := natOfDigits ms
    let d := natOfDigits ds
    if 1 ≤ y ∧ 1 ≤ m ∧ m ≤ 12 ∧ 1 ≤ d ∧ d ≤ daysInMonth y m then
      some (y, m, d)
    else none
  else none

def parseYMD (s : String) : Option (Nat × Nat × Nat) :=
  match splitOnChar '-' s.data with
  | [ys, ms, ds] => checkYMD ys ms ds
  | _ => none

/-- Two decimal digits (the canonical, zero-padded `MM`/`DD` rendering). -/
def pad2 (n : Nat) : List Char :=
  if n < 10 then ['0', Nat.digitChar n]
  else [Nat.digitChar (n / 10), Nat.digitChar (n % 10)]

/-- Four decimal digits (the canonical `YYYY` rendering). -/
def pad4 (n : Nat) : List Char :=
  [Nat.digitChar (n / 1000), Nat.digitChar (n / 100 % 10),
   Nat.digitChar (n / 10 % 10), Nat.digitChar (n % 10)]

/-- The canonical `YYYY-MM-DD` rendering of a date, used to state what the
date prettifier does on every well-formed input. -/
def renderYMD (y m d : Nat) : String :=
  ⟨pad4 y ++ '-' :: (pad2 m ++ '-' :: pad2 d)⟩

/-- `dt.strftime("%B")`: full English month name. -/
def monthName : Nat → String
  | 1 => "January"
  | 2 => "February"
  | 3 => "March"
  | 4 => "April"
  | 5 => "May"
  | 6 => "June"
  | 7 => "July"
  | 8 => "August"
  | 9 => "September"
  | 10 => "October"
  | 11 => "November"
  | 12 => "December"
  | _ => ""

/-- The date-prettifying block of `attach_charts_to_forecast`
(`app.py` lines 160-165): on successful parse the day gets
`f"{dt.strftime('%B')} {dt.day}, {dt.year}"` (day and year printed without
padding), on `ValueError` the raw string is kept. -/
def prettify_date (raw : String) : String :=
  match parseYMD raw with
  | some (y, m, d) => monthName m ++ " " ++ Nat.repr d ++ ", " ++ Nat.repr y
  | none => raw

/-- Keyword test used by `derive_bg_class`: the Python expression
`is_day == 1` where `is_day` came from JSON (`True == 1` holds in Python;
numeric literals are assumed canonical, so the JSON integer one is
`num "1"`). -/
def pyEqOne : JVal → Bool
  | .num lit => lit = "1"
  | .bool b => b
  | _ => false

/-- The keyword cascade of `derive_bg_class` (`app.py` lines 131-142) as a
function of the lower-cased condition text and the `is_day` value. -/
def classify_text (text : String) (is_day : JVal) : String :=
  if (["thunder", "storm"].any (fun w => strContains text w)) = true then "storm"
  else if (["snow", "blizzard", "sleet", "ice"].any (fun w => strContains text w)) = true then "snow"
  else if (["rain", "drizzle", "shower"].any (fun w => strContains text w)) = true then "rain"
  else if (["fog", "mist", "haze", "overcast"].any (fun w => strContains text w)) = true then "fog"
  else if (strContains text "cloud" || strContains text "overcast") = true then "cloudy"
  else if pyEqOne is_day then "clear-day" else "clear-night"

/-- `derive_bg_class(current)` (`app.py` lines 120-142).  A falsy `current`
(absent or empty dict) yields `"default"`; otherwise the condition text is
extracted with `.get` chains (raising `AttributeError` on non-dict values),
`str(...).lower()`-ed and classified. -/
def derive_bg_class (current : JVal) : Except String String :=
  if jTruthy current = false then .ok "default"
  else do
    let cond ← pyGetE current "condition" (.obj [])
    let tv ← pyGetE cond "text" (.str "")
    let is_day ← pyGetE current "is_day" (.num "1")
    .ok (classify_text (lowerStr (pyStr tv)) is_day)

/-- Modelled from the spec: ThemeClassifier's ordered keyword groups
("implement as an ordered list of (predicate, tag) pairs evaluated in the
documented fixed order"); used only to state the refinement between the
code's if-cascade and the spec's first-match-wins rule. -/
def theme_groups : List (List String × String) :=
  [(["thunder", "storm"], "storm"),
   (["snow", "blizzard", "sleet", "ice"], "snow"),
   (["rain", "drizzle", "shower"], "rain"),
   (["fog", "mist", "haze", "overcast"], "fog"),
   (["cloud"], "cloudy")]

/-- Modelled from the spec: first-match-wins evaluation of `theme_groups`,
with the documented day/night fallback. -/
def classify_spec (text : String) (is_day : JVal) : String :=
  match theme_groups.find? (fun g => g.1.any (fun w => strContains text w)) with
  | some g => g.2
  | none => if pyEqOne is_day then "clear-day" else "clear-night"

/-- `" " in t` in the axis-label comprehension.  Python membership: for a
string, substring test; for a list, element equality with the string
`" "` (equal only to itself); for a dict, key membership; otherwise
`TypeError`. -/
def pyContainsSpace : JVal → Except String Bool
  | .str s => .ok (strContains s " ")
  | .arr xs => .ok (xs.any (fun x => match x with | .str s => s = " " | _ => false))
  | .obj fs => .ok (fs.any (fun p => p.1 = " "))
  | _ => .error "TypeError: argument of type is not iterable"

/-- One element of `hours = [(t.split(\" \")[1] if \" \" in t else t) for t in times_full]`:
keep the time-of-day part of a `"YYYY-MM-DD HH:MM"` timestamp, pass other
values through; `t.split` raises on a non-string `t` that contains `" "`. -/
def time_label (t : JVal) : Except String JVal := do
  let b ← pyContainsSpace t
  if b then
    match t with
    | .str s => .ok (.str ⟨(splitOnChar ' ' s.data).getD 1 []⟩)
    | _ => .error "AttributeError: value has no method split"
  else .ok t

/-- A character the location sanitizer keeps:
`c.isalnum() or c in ("-", "_")` (ASCII fidelity for `isalnum`). -/
def allowedChar (c : Char) : Bool :=
  c.isAlphanum || c = '-' || c = '_'

/-- `safe_loc` (`app.py` line 82):
`"".join(c for c in location_name if c.isalnum() or c in ("-", "_")).strip() or "location"`. -/
def sanitize_location (loc : String) : String :=
  if (stripChars (loc.data.filter allowedChar)).isEmpty then "location"
  else ⟨stripChars (loc.data.filter allowedChar)⟩

/-- `step = max(1, len(hours) // 8)` (`app.py` line 97). -/
def tick_step (n : Nat) : Nat :=
  max 1 (n / 8)

/-- Python `list(range(0, stop, step))` for `step >= 1`: the
`(stop + step - 1) / step` multiples of `step` below `stop`. -/
def pyRangeStep (stop step : Nat) : List Nat :=
  (List.range ((stop + step - 1) / step)).map (fun i => i * step)

/-- `tick_positions = list(range(0, len(hours), step))` (`app.py` line 98)
as a function of the series length. -/
def tick_positions_of (n : Nat) : List Nat :=
  pyRangeStep n (tick_step n)

/-- What one chart render draws and where it is written: the data plotted
against an evenly spaced index, the tick positions/labels, and the output
filename.  The image write itself (`fig.savefig`) is a filesystem effect
outside the model and is assumed to succeed. -/
structure ChartSpec where
  filename : String
  x_vals : List Nat
  temps : List JVal
  tick_positions : List Nat
  tick_labels : List JVal

/-- `generate_hourly_chart(day_data, location_name)` (`app.py` lines
61-117).  Returns `.ok none` for the "nothing to draw" outcome, `.ok (some
spec)` for a rendered chart, and `.error` when the Python code would raise
an uncaught exception.  Iterating a truthy non-list `hour` value raises in
Python at the loop or at the first element's `.get`; both are collapsed to
one `.error`. -/
def generate_hourly_chart (day_data : JVal) (location_name : JVal) :
    Except String (Option ChartSpec) := do
  let hours_data ← pyGetE day_data "hour" (.arr [])
  if jTruthy hours_data = false then
    .ok none
  else do
    let hs ← (match hours_data with
      | .arr xs => .ok xs
      | _ => Except.error "TypeError: truthy non-list hour value")
    let times_full ← listMapE (fun h => pyGetE h "time" (.str "")) hs
    let temps ← listMapE (fun h => pyGetE h "temp_f" .null) hs
    if temps.isEmpty ∨ times_full.isEmpty then
      .ok none
    else do
      let hours ← listMapE time_label times_full
      let date_val ← pyGetE day_data "date" (.str "unknown")
      let loc ← (match location_name with
        | .str s => Except.ok s
        | _ => Except.error "TypeError: iterating a non-string location name")
      let safe_loc := sanitize_location loc
      let filename := safe_loc ++ "_" ++ pyStr date_val ++ ".png"
      let tickpos := tick_positions_of hours.length
      let ticklab := tickpos.map (fun i => hours.getD i (.str ""))
      .ok (some ⟨filename, List.range temps.length, temps, tickpos, ticklab⟩)

/-- The per-day body of the loop in `attach_charts_to_forecast`
(`app.py` lines 157-169): attach `date_pretty` when a truthy date is
present (raising `TypeError` on a truthy non-string date, which the
`except ValueError` does not catch), then attach `chart_image` when a
chart was generated. -/
def enrich_day (location_name : JVal) (day : JVal) : Except String JVal := do
  let raw ← pyGetE day "date" .null
  let day1 ←
    if jTruthy raw = true then
      match raw with
      | .str s => Except.ok (jSet day "date_pretty" (.str (prettify_date s)))
      | _ => Except.error "TypeError: strptime argument must be str"
    else Except.ok day
  let chart ← generate_hourly_chart day1 location_name
  match chart with
  | some cs =>
    if cs.filename.isEmpty then .ok day1
    else .ok (jSet day1 "chart_image" (.str cs.filename))
  | none => .ok day1

/-- Write the enriched day list back at `weather_data["forecast"]["forecastday"]`
(in Python the list is mutated in place). -/
def set_forecastday (w : JVal) (days2 : List JVal) : JVal :=
  match pyItem? w "forecast" with
  | some f => jSet w "forecast" (jSet f "forecastday" (.arr days2))
  | none => w

/-- `attach_charts_to_forecast(weather_data)` (`app.py` lines 146-169).
The two lookups at the top are wrapped in `try/except (KeyError,
TypeError)`, which returns with no mutation; iterating a truthy non-list
`forecastday` (or a falsy non-list, which loops zero times) and non-dict
days raise uncaught exceptions, modelled by `.error`. -/
def attach_charts_to_forecast (weather_data : JVal) : Except String JVal :=
  match pyItem2? weather_data "location" "name",
        pyItem2? weather_data "forecast" "forecastday" with
  | some location_name, some fd =>
    (match fd with
     | .arr days =>
       (listMapE (enrich_day location_name) days).map
         (fun days2 => set_forecastday weather_data days2)
     | .str s =>
       if s.isEmpty then .ok weather_data
       else .error "AttributeError: str day has no method get"
     | .obj fs =>
       if fs.isEmpty then .ok weather_data
       else .error "AttributeError: str key day has no method get"
     | _ => .error "TypeError: forecastday is not iterable")
  | _, _ => .ok weather_data

/-- What the abstracted network call `requests.get(...)` produced: either a
raised `requests.RequestException` with its rendered cause, or a response
with a status code and the result of `resp.json()` (`none` when the body is
not valid JSON, `some .null` when the body is the JSON literal `null`,
which Python parses to `None`). -/
inductive HttpOutcome where
  | exc (cause : String)
  | resp (status : Nat) (body : Option JVal)

/-- The configuration error message (`app.py` line 27). -/
def config_error_msg : String :=
  "Weather API key is not configured. Set WEATHER_API_KEY in your .env file."

/-- The fallback of the `.get("message", ...)` chain (`app.py` line 48). -/
def unknown_error_msg : String :=
  "Unknown error from weather service."

/-- The `except` branch of the error extraction (`app.py` line 50). -/
def status_error_msg (status : Nat) : String :=
  "Unexpected error from weather service (status " ++ Nat.repr status ++ ")."

/-- `resp.json().get("error", {}).get("message", ...)` under
`try/except Exception` (`app.py` lines 47-50): an unparseable body, a
non-dict body or a non-dict `error` value raises inside the `try` and
yields the status message; a dict body without a `message` yields the
fixed `unknown_error_msg`. -/
def extract_error (body : Option JVal) (status : Nat) : JVal :=
  match body with
  | none => .str (status_error_msg status)
  | some (.obj fs) =>
    (match (dictGet? fs "error").getD (.obj []) with
     | .obj efs => (dictGet? efs "message").getD (.str unknown_error_msg)
     | _ => .str (status_error_msg status))
  | some _ => .str (status_error_msg status)

/-- Python `data = resp.json()` followed by `return data, None`: the JSON
literal `null` is Python `None`, so it lands in the "absent" half of the
returned pair. -/
def json_to_py (j : JVal) : Option JVal :=
  match j with
  | .null => none
  | _ => some j

/-- `if not API_KEY:` — `os.getenv` returns `None` when unset, and an empty
string is falsy too. -/
def api_key_set : Option String → Bool
  | none => false
  | some s => !s.isEmpty

/-- `fetch_weather(query, days)` (`app.py` lines 20-58) as a function of
the configured key and the abstracted HTTP outcome (the query and day
count only parametrise the outbound request, which `HttpOutcome`
abstracts).  Returns the Python pair `(data, error_message)`. -/
def fetch_weather (api_key : Option String) (out : HttpOutcome) :
    Option JVal × Option JVal :=
  if api_key_set api_key = false then
    (none, some (.str config_error_msg))
  else
    match out with
    | .exc cause =>
      (none, some (.str ("Network error while contacting weather service: " ++ cause)))
    | .resp status body =>
      if status ≠ 200 then (none, some (extract_error body status))
      else
        match body with
        | none => (none, some (.str "Failed to parse response from weather service."))
        | some j => (json_to_py j, none)

/-- The request data the route handler reads: the HTTP method and the two
form fields. -/
structure ReqCtx where
  method_post : Bool
  form_location : Option String
  form_days : Option String

/-- The keyword arguments passed to `render_template` (`app.py` lines
210-218): the produced pipeline result. -/
structure TemplateCtx where
  query : String
  weather : Option JVal
  error : Option JVal
  days : Int
  bg_theme : String
  map_timestamp : String

/-- The validation error message (`app.py` line 201). -/
def validation_error_msg : String :=
  "Please enter a city name or ZIP code."

/-- The post-fetch half of the route handler (`app.py` lines 203-218):
`if weather_data and not error:` enrich, classify and refresh the
timestamp, else render what the fetch returned.  `fetch_weather` returns
at most one `some`, so "truthy data and falsy error" is: data present and
truthy, error absent. -/
def handle_fetch (query : String) (days : Int) (ts1 ts2 : String) :
    Option JVal × Option JVal → Except String TemplateCtx
  | (some w, none) =>
    if jTruthy w = true then do
      let w2 ← attach_charts_to_forecast w
      let cur ← pyGetE w2 "current" (.obj [])
      let bg ← derive_bg_class cur
      .ok ⟨query, some w2, none, days, bg, ts2⟩
    else .ok ⟨query, some w, none, days, "default", ts1⟩
  | (wd, err) => .ok ⟨query, wd, err, days, "default", ts1⟩

/-- The route handler `index()` (`app.py` lines 180-218).  `ts1` and `ts2`
are the two values `compute_weather_map_timestamp()` returns at page entry
and after a successful fetch (it reads the wall clock, which the model
abstracts).  `.error` models an uncaught exception during enrichment
(Flask would render a 500 page instead of the template). -/
def index (api_key : Option String) (out : HttpOutcome) (ts1 ts2 : String)
    (req : ReqCtx) : Except String TemplateCtx :=
  if req.method_post = false then
    .ok ⟨"", none, none, 5, "default", ts1⟩
  else
    let query := pyStrip (req.form_location.getD "")
    let days : Int := (pyInt (req.form_days.getD "5")).getD 5
    if query.isEmpty then
      .ok ⟨query, none, some (.str validation_error_msg), days, "default", ts1⟩
    else
      handle_fetch query days ts1 ts2 (fetch_weather api_key out)

-- ------------------------------------------------------------------
-- Helper lemmas
-- ------------------------------------------------------------------

theorem listStarts_append (n y : List Char) : listStarts n (n ++ y) = true := by
  induction n with
  | nil => rfl
  | cons c t ih => simp [listStarts, ih]

theorem hasSub_of_starts {hay n : List Char} (h : listStarts n hay = true) :
    hasSub hay n = true := by
  cases hay with
  | nil => simpa [hasSub] using h
  | cons c t => simp [hasSub, h]

theorem hasSub_append_left (x : List Char) {rest n : List Char}
    (h : hasSub rest n = true) : hasSub (x ++ rest) n = true := by
  induction x with
  | nil => simpa using h
  | cons c t ih => simp [hasSub, ih]

theorem strContains_append_mid (a b c : String) :
    strContains (a ++ (b ++ c)) b = true := by
  have h1 : hasSub (b.data ++ c.data) b.data = true :=
    hasSub_of_starts (listStarts_append b.data c.data)
  have h2 : hasSub (a.data ++ (b.data ++ c.data)) b.data = true :=
    hasSub_append_left a.data h1
  simpa [strContains, String.data_append] using h2

theorem except_bind_ok {α β : Type} (a : α) (k : α → Except String β) :
    (Except.ok a >>= k) = k a := rfl

theorem except_bind_error {α β : Type} (e : String) (k : α → Except String β) :
    ((Except.error e : Except String α) >>= k) = .error e := rfl

theorem except_map_ok {α β : Type} (f : α → β) (a : α) :
    Except.map f (Except.ok a : Except String α) = .ok (f a) := rfl

theorem except_map_error {α β : Type} (f : α → β) (e : String) :
    Except.map f (Except.error e : Except String α) = .error e := rfl

theorem listMapE_ok_length {α β : Type} {f : α → Except String β} :
    ∀ {xs : List α} {ys : List β}, listMapE f xs = .ok ys → ys.length = xs.length := by
  intro xs
  induction xs with
  | nil =>
    intro ys h
    cases h
    rfl
  | cons x t ih =>
    intro ys h
    unfold listMapE at h
    rcases hf : f x with e | y <;> rw [hf] at h
    · simp [except_bind_error] at h
    · rcases hm : listMapE f t with e | ts <;> rw [hm] at h
      · simp [except_bind_ok, except_bind_error] at h
      · simp only [except_bind_ok] at h
        cases h
        simp [ih hm]

theorem stripChars_sublist (cs : List Char) : List.Sublist (stripChars cs) cs := by
  unfold stripChars
  have h1 : List.Sublist ((cs.dropWhile isPySpace).reverse.dropWhile isPySpace)
      (cs.dropWhile isPySpace).reverse := List.dropWhile_sublist _
  have h2 : List.Sublist ((cs.dropWhile isPySpace).reverse.dropWhile isPySpace).reverse
      (cs.dropWhile isPySpace).reverse.reverse := List.reverse_sublist.mpr h1
  rw [List.reverse_reverse] at h2
  exact h2.trans (List.dropWhile_sublist _)

theorem classify_text_eq_spec (text : String) (isd : JVal) :
    classify_text text isd = classify_spec text isd := by
  simp only [classify_text, classify_spec, theme_groups, List.any_cons,
    List.any_nil, Bool.or_false, List.find?]
  cases hg1 : (strContains text "thunder" || strContains text "storm") <;>
    cases hg2 : (strContains text "snow" ||
      (strContains text "blizzard" || (strContains text "sleet" || strContains text "ice"))) <;>
      cases hg3 : (strContains text "rain" ||
        (strContains text "drizzle" || strContains text "shower")) <;>
        cases hg4 : (strContains text "fog" ||
          (strContains text "mist" || (strContains text "haze" || strContains text "overcast"))) <;>
          cases hg5 : strContains text "cloud" <;>
            simp_all

theorem classify_text_overcast_not_cloudy {text : String} (isd : JVal)
    (h : strContains text "overcast" = true) :
    classify_text text isd ≠ "cloudy" := by
  have hfog : (["fog", "mist", "haze", "overcast"].any
      (fun w => strContains text w)) = true := by
    simp [h]
  unfold classify_text
  split_ifs <;> decide

theorem classify_text_overcast_fog {text : String} (isd : JVal)
    (h : strContains text "overcast" = true)
    (h2 : (["thunder", "storm", "snow", "blizzard", "sleet", "ice", "rain",
        "drizzle", "shower"].any (fun w => strContains text w)) = false) :
    classify_text text isd = "fog" := by
  simp only [List.any_cons, List.any_nil, Bool.or_eq_false_iff] at h2
  have hfog : (["fog", "mist", "haze", "overcast"].any
      (fun w => strContains text w)) = true := by
    simp [h]
  unfold classify_text
  split_ifs <;> first | rfl | simp_all

theorem generate_shape (fs : List (String × JVal)) (loc : JVal) :
    (jTruthy ((dictGet? fs "hour").getD (.arr [])) = false
      ∧ generate_hourly_chart (.obj fs) loc = .ok none)
    ∨ (jTruthy ((dictGet? fs "hour").getD (.arr [])) = true
      ∧ ((∃ e, generate_hourly_chart (.obj fs) loc = .error e)
        ∨ (∃ (s : String) (temps hours : List JVal), loc = .str s
            ∧ generate_hourly_chart (.obj fs) loc
              = .ok (some ⟨sanitize_location s ++ "_"
                    ++ pyStr ((dictGet? fs "date").getD (.str "unknown")) ++ ".png",
                  List.range temps.length, temps, tick_positions_of hours.length,
                  (tick_positions_of hours.length).map (fun i => hours.getD i (.str ""))⟩)))) := by
  have hget : pyGetE (.obj fs) "hour" (.arr []) = .ok ((dictGet? fs "hour").getD (.arr [])) := rfl
  have hdate : pyGetE (.obj fs) "date" (.str "unknown")
      = .ok ((dictGet? fs "date").getD (.str "unknown")) := rfl
  cases htr : jTruthy ((dictGet? fs "hour").getD (.arr []))
  · left
    refine ⟨rfl, ?_⟩
    simp only [generate_hourly_chart, hget, except_bind_ok]
    rw [if_pos htr]
  · right
    refine ⟨rfl, ?_⟩
    simp only [generate_hourly_chart, hget, hdate, except_bind_ok]
    rw [if_neg (by simp [htr])]
    generalize hdef : (dictGet? fs "hour").getD (.arr []) = hd at htr
    cases hd with
    | null => simp [jTruthy] at htr
    | bool b =>
      exact Or.inl ⟨"TypeError: truthy non-list hour value", by simp [except_bind_error]⟩
    | num lit =>
      exact Or.inl ⟨"TypeError: truthy non-list hour value", by simp [except_bind_error]⟩
    | str s =>
      exact Or.inl ⟨"TypeError: truthy non-list hour value", by simp [except_bind_error]⟩
    | obj gs =>
      exact Or.inl ⟨"TypeError: truthy non-list hour value", by simp [except_bind_error]⟩
    | arr xs =>
      have hxs : xs ≠ [] := by
        intro hnil
        subst hnil
        simp [jTruthy] at htr
      simp only [except_bind_ok]
      rcases h1 : listMapE (fun h => pyGetE h "time" (.str "")) xs with e1 | ts
      · exact Or.inl ⟨e1, by simp [h1, except_bind_error]⟩
      · rcases h2 : listMapE (fun h => pyGetE h "temp_f" JVal.null) xs with e2 | temps
        · exact Or.inl ⟨e2, by simp [h1, h2, except_bind_ok, except_bind_error]⟩
        · have hl1 : ts.length = xs.length := listMapE_ok_length h1
          have hl2 : temps.length = xs.length := listMapE_ok_length h2
          have he1 : ts.isEmpty = false := by
            cases ts with
            | nil => exact absurd (List.length_eq_zero.mp hl1.symm).symm (Ne.symm hxs)
            | cons a b => rfl
          have he2 : temps.isEmpty = false := by
            cases temps with
            | nil => exact absurd (List.length_eq_zero.mp hl2.symm).symm (Ne.symm hxs)
            | cons a b => rfl
          rcases h3 : listMapE time_label ts with e3 | hours
          · refine Or.inl ⟨e3, ?_⟩
            simp only [h1, h2, except_bind_ok]
            rw [if_neg (by simp [he1, he2])]
            simp [h3, except_bind_ok, except_bind_error]
          · cases loc with
            | str s =>
              refine Or.inr ⟨s, temps, hours, rfl, ?_⟩
              simp only [h1, h2, except_bind_ok]
              rw [if_neg (by simp [he1, he2])]
              simp [h3, except_bind_ok]
            | null =>
              refine Or.inl ⟨"TypeError: iterating a non-string location name", ?_⟩
              simp only [h1, h2, except_bind_ok]
              rw [if_neg (by simp [he1, he2])]
              simp [h3, except_bind_ok, except_bind_error]
            | bool b =>
              refine Or.inl ⟨"TypeError: iterating a non-string location name", ?_⟩
              simp only [h1, h2, except_bind_ok]
              rw [if_neg (by simp [he1, he2])]
              simp [h3, except_bind_ok, except_bind_error]
            | num lit =>
              refine Or.inl ⟨"TypeError: iterating a non-string location name", ?_⟩
              simp only [h1, h2, except_bind_ok]
              rw [if_neg (by simp [he1, he2])]
              simp [h3, except_bind_ok, except_bind_error]
            | arr ys =>
              refine Or.inl ⟨"TypeError: iterating a non-string location name", ?_⟩
              simp only [h1, h2, except_bind_ok]
              rw [if_neg (by simp [he1, he2])]
              simp [h3, except_bind_ok, except_bind_error]
            | obj gs =>
              refine Or.inl ⟨"TypeError: iterating a non-string location name", ?_⟩
              simp only [h1, h2, except_bind_ok]
              rw [if_neg (by simp [he1, he2])]
              simp [h3, except_bind_ok, except_bind_error]

-- ------------------------------------------------------------------
-- C1: theme classifier ordering
-- ------------------------------------------------------------------

/-- C1 (corrected), counterexample: the condition text
"Overcast with thunder" contains "overcast" but is classified "storm" (the
storm group is checked first), not "fog"; so "for every condition text
containing overcast the result is fog" fails on the code. -/
theorem derive_bg_class_overcast_cex :
    derive_bg_class (.obj [("condition", .obj [("text", .str "Overcast with thunder")]),
        ("is_day", .num "1")]) = .ok "storm"
    ∧ strContains (lowerStr "Overcast with thunder") "overcast" = true
    ∧ "storm" ≠ "fog" ∧ "storm" ≠ "cloudy" :=
  ⟨rfl, rfl, by decide, by decide⟩

/-- C1 (amended): for every current-conditions dict with condition text `t`
and day flag `isd`, the classifier lower-cases `t` and returns exactly the
first matching keyword group in the fixed order storm, snow, rain, fog,
cloudy, then the day/night fallback (refinement against the spec's ordered
group list, so exactly one tag is returned); a text containing "overcast"
is never classified "cloudy", and is classified "fog" whenever no
storm/snow/rain keyword occurs in it. -/
theorem derive_bg_class_order (t : String) (isd : JVal) :
    derive_bg_class (.obj [("condition", .obj [("text", .str t)]), ("is_day", isd)])
      = .ok (classify_spec (lowerStr t) isd)
    ∧ (strContains (lowerStr t) "overcast" = true →
        classify_spec (lowerStr t) isd ≠ "cloudy")
    ∧ (strContains (lowerStr t) "overcast" = true →
        (["thunder", "storm", "snow", "blizzard", "sleet", "ice", "rain",
          "drizzle", "shower"].any (fun w => strContains (lowerStr t) w)) = false →
        classify_spec (lowerStr t) isd = "fog") := by
  refine ⟨?_, ?_, ?_⟩
  · have h : derive_bg_class (.obj [("condition", .obj [("text", .str t)]),
        ("is_day", isd)]) = .ok (classify_text (lowerStr t) isd) := rfl
    rw [h, classify_text_eq_spec]
  · intro hov
    rw [← classify_text_eq_spec]
    exact classify_text_overcast_not_cloudy isd hov
  · intro hov h2
    rw [← classify_text_eq_spec]
    exact classify_text_overcast_fog isd hov h2

/-- Witness for `derive_bg_class_order`: the plain text "Overcast" is
classified "fog". -/
theorem derive_bg_class_order_wit :
    classify_spec (lowerStr "Overcast") (.num "1") = "fog" :=
  (derive_bg_class_order "Overcast" (.num "1")).2.2 rfl rfl

-- ------------------------------------------------------------------
-- C6: default tag for absent/empty input
-- ------------------------------------------------------------------

/-- C6 (corrected), counterexample: a non-empty current dict whose
condition description is the empty string is classified "clear-day" — an
empty condition description does reach the day/night fallback. -/
theorem derive_bg_class_empty_text_cex :
    derive_bg_class (.obj [("condition", .obj [("text", .str "")]),
        ("is_day", .num "1")]) = .ok "clear-day"
    ∧ "clear-day" ≠ "default" :=
  ⟨rfl, by decide⟩

/-- C6 (amended): for every absent or empty (falsy) current-conditions
value the classifier returns "default", which is distinct from "clear-day"
and "clear-night"; but an empty condition description inside a non-empty
current dict falls through to the day/night fallback. -/
theorem derive_bg_class_default_on_falsy (j : JVal) (h : jTruthy j = false) :
    derive_bg_class j = .ok "default"
    ∧ "default" ≠ "clear-day" ∧ "default" ≠ "clear-night" := by
  refine ⟨?_, by decide, by decide⟩
  simp [derive_bg_class, h]

/-- Witness for `derive_bg_class_default_on_falsy` at the absent value. -/
theorem derive_bg_class_default_on_falsy_wit :
    derive_bg_class .null = .ok "default"
    ∧ "default" ≠ "clear-day" ∧ "default" ≠ "clear-night" :=
  derive_bg_class_default_on_falsy .null rfl

-- ------------------------------------------------------------------
-- C10: attach_charts_to_forecast is a no-op on lookup failure
-- ------------------------------------------------------------------

/-- C10: when `weather_data["location"]["name"]` or
`weather_data["forecast"]["forecastday"]` is missing or indexes a non-dict
value, `attach_charts_to_forecast` returns without raising and leaves the
value completely unchanged (so no day gains `date_pretty` or
`chart_image`). -/
theorem attach_charts_missing_keys_noop (w : JVal)
    (h : pyItem2? w "location" "name" = none
      ∨ pyItem2? w "forecast" "forecastday" = none) :
    attach_charts_to_forecast w = .ok w := by
  unfold attach_charts_to_forecast
  rcases h with h | h
  · rcases hb : pyItem2? w "forecast" "forecastday" with _ | f <;> simp [h, hb]
  · rcases ha : pyItem2? w "location" "name" with _ | l <;> simp [h, ha]

/-- Witness for `attach_charts_missing_keys_noop` at the empty response. -/
theorem attach_charts_missing_keys_noop_wit :
    attach_charts_to_forecast (.obj []) = .ok (.obj []) :=
  attach_charts_missing_keys_noop (.obj []) (Or.inl rfl)

-- ------------------------------------------------------------------
-- C2: error extraction on non-success status
-- ------------------------------------------------------------------

/-- C2 (corrected), counterexample: a 500 response whose body is the JSON
dict `\x7b\x7d` has no extractable provider message, yet the returned error is
the fixed "Unknown error from weather service." — which does not include
the status code 500. -/
theorem fetch_weather_unknown_error_cex :
    fetch_weather (some "k") (.resp 500 (some (.obj [])))
      = (none, some (.str unknown_error_msg))
    ∧ strContains unknown_error_msg (Nat.repr 500) = false :=
  ⟨rfl, rfl⟩

/-- C2 (amended): on a non-success status, the returned error is the
provider-supplied `error.message` when the body is a dict with a dict
`error` holding a `message`; when the extraction raises (unparseable body,
non-dict body, or non-dict `error` value) the message is the generic one
including the numeric status code; when the body is a dict but no
`error.message` is present, the fixed "Unknown error from weather
service." without the status code is returned.  In particular a 400
response with body `\x7b"error":\x7b"message":"No matching location found."\x7d\x7d`
yields exactly that provider string. -/
theorem fetch_weather_error_extraction (status : Nat) (k : String) (body : Option JVal)
    (hs : status ≠ 200) (hk : api_key_set (some k) = true) :
    (∀ fs efs v, body = some (.obj fs) → dictGet? fs "error" = some (.obj efs) →
      dictGet? efs "message" = some v →
      fetch_weather (some k) (.resp status body) = (none, some v))
    ∧ (body = none →
      fetch_weather (some k) (.resp status body)
        = (none, some (.str (status_error_msg status))))
    ∧ (∀ j, body = some j → isObj j = false →
      fetch_weather (some k) (.resp status body)
        = (none, some (.str (status_error_msg status))))
    ∧ (∀ fs e, body = some (.obj fs) → dictGet? fs "error" = some e → isObj e = false →
      fetch_weather (some k) (.resp status body)
        = (none, some (.str (status_error_msg status))))
    ∧ (∀ fs, body = some (.obj fs) → dictGet? fs "error" = none →
      fetch_weather (some k) (.resp status body) = (none, some (.str unknown_error_msg)))
    ∧ (∀ fs efs, body = some (.obj fs) → dictGet? fs "error" = some (.obj efs) →
      dictGet? efs "message" = none →
      fetch_weather (some k) (.resp status body) = (none, some (.str unknown_error_msg)))
    ∧ strContains (status_error_msg status) (Nat.repr status) = true := by
  refine ⟨?_, ?_, ?_, ?_, ?_, ?_, ?_⟩
  · intro fs efs v h1 h2 h3
    subst h1
    simp [fetch_weather, hk, hs, extract_error, h2, h3]
  · intro h1
    subst h1
    simp [fetch_weather, hk, hs, extract_error]
  · intro j h1 h2
    subst h1
    cases j <;> simp_all [fetch_weather, hk, hs, extract_error, isObj]
  · intro fs e h1 h2 h3
    subst h1
    cases e <;> simp_all [fetch_weather, hk, hs, extract_error, isObj]
  · intro fs h1 h2
    subst h1
    simp [fetch_weather, hk, hs, extract_error, h2, dictGet?, unknown_error_msg]
  · intro fs efs h1 h2 h3
    subst h1
    simp [fetch_weather, hk, hs, extract_error, h2, h3, unknown_error_msg]
  · have h := strContains_append_mid "Unexpected error from weather service (status "
      (Nat.repr status) ")."
    simpa [status_error_msg, String.append_assoc] using h

/-- Witness for `fetch_weather_error_extraction`: the documented 400
scenario returns exactly the provider string. -/
theorem fetch_weather_error_extraction_wit :
    fetch_weather (some "k")
        (.resp 400 (some (.obj [("error", .obj [("message", .str "No matching location found.")])])))
      = (none, some (.str "No matching location found.")) :=
  (fetch_weather_error_extraction 400 "k"
      (some (.obj [("error", .obj [("message", .str "No matching location found.")])]))
      (by decide) rfl).1 _ _ _ rfl rfl rfl

-- ------------------------------------------------------------------
-- C4: axis label thinning
-- ------------------------------------------------------------------

/-- C4 (corrected), counterexample: a 15-point hourly series renders 15
tick labels (step `max(1, 15 // 8) = 1`), not at most about 8. -/
theorem tick_labels_cex :
    (Except.map (Option.map (fun c : ChartSpec => c.tick_positions.length))
      (generate_hourly_chart
        (.obj [("date", .str "2025-01-02"),
               ("hour", .arr (List.replicate 15
                 (.obj [("time", .str "x"), ("temp_f", .num "50")])))])
        (.str "Loc"))) = .ok (some 15)
    ∧ ¬(15 ≤ 8) :=
  ⟨rfl, by decide⟩

/-- C4 (amended): the chart shows only every Nth axis label with
`N = max(1, L / 8)` (integer division) — that is the definition of
`tick_step` —, which bounds the label count by 15 for every series length
(the bound 8 claimed by the spec is exceeded, e.g. at L = 15); for a
24-point series exactly 8 labels render. -/
theorem tick_labels_bound (L : Nat) (h1 : 1 ≤ L) :
    (tick_positions_of L).length ≤ 15
    ∧ (tick_positions_of 24).length = 8 := by
  constructor
  · have hk1 : 1 ≤ tick_step L := Nat.le_max_left _ _
    have hk2 : L / 8 ≤ tick_step L := Nat.le_max_right _ _
    have hlen : (tick_positions_of L).length = (L + tick_step L - 1) / tick_step L := by
      simp [tick_positions_of, pyRangeStep]
    rw [hlen]
    have h16 : (L + tick_step L - 1) / tick_step L < 16 := by
      rw [Nat.div_lt_iff_lt_mul (by omega)]
      omega
    omega
  · rfl

/-- Witness for `tick_labels_bound` at the 24-point series. -/
theorem tick_labels_bound_wit :
    (tick_positions_of 24).length ≤ 15 ∧ (tick_positions_of 24).length = 8 :=
  tick_labels_bound 24 (by decide)

-- ------------------------------------------------------------------
-- C5: no chart exactly when nothing to draw
-- ------------------------------------------------------------------

/-- C5: `generate_hourly_chart` returns null (no chart) exactly when the
day record's hourly list is absent, empty or otherwise falsy — in the code
"no extractable temperature series" cannot occur separately, since the
extracted series has one entry per hourly reading — and this outcome is
not an error: concretely, enriching a response whose day record has an
empty hourly list completes without an exception, attaches `date_pretty`,
and leaves the day without a `chart_image` field. -/
theorem chart_none_iff_no_hours (fs : List (String × JVal)) (loc : JVal) :
    (generate_hourly_chart (.obj fs) loc = .ok none
      ↔ jTruthy ((dictGet? fs "hour").getD (.arr [])) = false)
    ∧ attach_charts_to_forecast
        (.obj [("location", .obj [("name", .str "Seattle")]),
               ("forecast", .obj [("forecastday",
                 .arr [.obj [("date", .str "2025-01-02"), ("hour", .arr [])]])]),
               ("current", .obj [("condition", .obj [("text", .str "Sunny")])])])
      = .ok (.obj [("location", .obj [("name", .str "Seattle")]),
               ("forecast", .obj [("forecastday",
                 .arr [.obj [("date", .str "2025-01-02"), ("hour", .arr []),
                   ("date_pretty", .str "January 2, 2025")]])]),
               ("current", .obj [("condition", .obj [("text", .str "Sunny")])])])
    ∧ pyItem? (.obj [("date", .str "2025-01-02"), ("hour", .arr []),
        ("date_pretty", .str "January 2, 2025")]) "chart_image" = none := by
  refine ⟨⟨?_, ?_⟩, rfl, rfl⟩
  · intro h
    rcases generate_shape fs loc with ⟨ht, _⟩ | ⟨_, hrest⟩
    · exact ht
    · rcases hrest with ⟨e, hg⟩ | ⟨s, temps, hours, _, hg⟩
      · rw [h] at hg
        simp at hg
      · rw [h] at hg
        simp at hg
  · intro ht
    rcases generate_shape fs loc with ⟨_, hg⟩ | ⟨ht2, _⟩
    · exact hg
    · rw [ht] at ht2
      simp at ht2

/-- Witness for `chart_none_iff_no_hours` at a day record with an
explicitly empty hourly list. -/
theorem chart_none_iff_no_hours_wit :
    (generate_hourly_chart (.obj [("hour", .arr [])]) .null = .ok none
      ↔ jTruthy ((dictGet? [("hour", .arr [])] "hour").getD (.arr [])) = false)
    ∧ attach_charts_to_forecast
        (.obj [("location", .obj [("name", .str "Seattle")]),
               ("forecast", .obj [("forecastday",
                 .arr [.obj [("date", .str "2025-01-02"), ("hour", .arr [])]])]),
               ("current", .obj [("condition", .obj [("text", .str "Sunny")])])])
      = .ok (.obj [("location", .obj [("name", .str "Seattle")]),
               ("forecast", .obj [("forecastday",
                 .arr [.obj [("date", .str "2025-01-02"), ("hour", .arr []),
                   ("date_pretty", .str "January 2, 2025")]])]),
               ("current", .obj [("condition", .obj [("text", .str "Sunny")])])])
    ∧ pyItem? (.obj [("date", .str "2025-01-02"), ("hour", .arr []),
        ("date_pretty", .str "January 2, 2025")]) "chart_image" = none :=
  chart_none_iff_no_hours [("hour", .arr [])] .null

-- ------------------------------------------------------------------
-- C8: sanitized, deterministic chart filenames
-- ------------------------------------------------------------------

theorem sanitize_location_allowed (loc : String) :
    (sanitize_location loc).data.all allowedChar = true := by
  unfold sanitize_location
  split
  · decide
  · rw [List.all_eq_true]
    intro c hc
    have hmem := (stripChars_sublist (loc.data.filter allowedChar)).subset hc
    exact (List.mem_filter.mp hmem).2

theorem sanitize_location_ne_empty (loc : String) : sanitize_location loc ≠ "" := by
  unfold sanitize_location
  cases hemp : (stripChars (loc.data.filter allowedChar)).isEmpty
  · rw [if_neg (by simp [hemp])]
    intro hc
    have hdata : stripChars (loc.data.filter allowedChar) = [] :=
      congrArg String.data hc
    rw [hdata] at hemp
    simp at hemp
  · rw [if_pos (by simp [hemp])]
    decide

/-- C8: every chart filename is `{sanitizedLocation}_{date}.png`; the
sanitized location contains only letters, digits, hyphens and underscores,
is never empty, and falls back to the fixed token "location" when nothing
survives sanitization; and the name is deterministic — it depends only on
the location and the day's date, so two calls on identical input (or any
input with the same date) produce the same filename. -/
theorem chart_filename_deterministic (fs : List (String × JVal)) (loc : String)
    (cs : ChartSpec)
    (h : generate_hourly_chart (.obj fs) (.str loc) = .ok (some cs)) :
    cs.filename = sanitize_location loc ++ "_"
      ++ pyStr ((dictGet? fs "date").getD (.str "unknown")) ++ ".png"
    ∧ (sanitize_location loc).data.all allowedChar = true
    ∧ sanitize_location loc ≠ ""
    ∧ (∀ loc2 : String, loc2.data.filter allowedChar = [] →
        sanitize_location loc2 = "location")
    ∧ (∀ fs2 cs2, dictGet? fs2 "date" = dictGet? fs "date" →
        generate_hourly_chart (.obj fs2) (.str loc) = .ok (some cs2) →
        cs2.filename = cs.filename) := by
  have hname : ∀ (gs : List (String × JVal)) (c : ChartSpec),
      generate_hourly_chart (.obj gs) (.str loc) = .ok (some c) →
      c.filename = sanitize_location loc ++ "_"
        ++ pyStr ((dictGet? gs "date").getD (.str "unknown")) ++ ".png" := by
    intro gs c hg
    rcases generate_shape gs (.str loc) with ⟨_, h0⟩ | ⟨_, ⟨e, h0⟩ | ⟨s, temps, hours, hseq, h0⟩⟩
    · rw [hg] at h0
      simp at h0
    · rw [hg] at h0
      simp at h0
    · injection hseq with hls
      subst hls
      rw [hg] at h0
      simp only [Except.ok.injEq, Option.some.injEq] at h0
      rw [h0]
  refine ⟨hname fs cs h, sanitize_location_allowed loc, sanitize_location_ne_empty loc,
    ?_, ?_⟩
  · intro loc2 hfil
    unfold sanitize_location
    rw [hfil]
    rfl
  · intro fs2 cs2 hdate hg2
    rw [hname fs2 cs2 hg2, hname fs cs h, hdate]

/-- Witness for `chart_filename_deterministic`: the location "Se attle!"
sanitizes to "Seattle" and the chart of 2025-01-02 is named
"Seattle_2025-01-02.png". -/
theorem chart_filename_deterministic_wit :
    (⟨"Seattle_2025-01-02.png", [0], [.num "50"], [0], [.str "03:00"]⟩ : ChartSpec).filename
      = sanitize_location "Se attle!" ++ "_"
        ++ pyStr ((dictGet? [("date", .str "2025-01-02"),
            ("hour", .arr [.obj [("time", .str "2025-01-02 03:00"),
              ("temp_f", .num "50")]])] "date").getD (.str "unknown")) ++ ".png" :=
  (chart_filename_deterministic
    [("date", .str "2025-01-02"),
     ("hour", .arr [.obj [("time", .str "2025-01-02 03:00"), ("temp_f", .num "50")]])]
    "Se attle!"
    ⟨"Seattle_2025-01-02.png", [0], [.num "50"], [0], [.str "03:00"]⟩ rfl).1

-- ------------------------------------------------------------------
-- C7: date prettifier
-- ------------------------------------------------------------------

theorem digit_isDigit {n : Nat} (h : n < 10) : (Nat.digitChar n).isDigit = true := by
  interval_cases n <;> decide

theorem digit_val {n : Nat} (h : n < 10) : (Nat.digitChar n).toNat - 48 = n := by
  interval_cases n <;> decide

theorem all_digits_no_dash {cs : List Char} (h : cs.all Char.isDigit = true) :
    ∀ c ∈ cs, c ≠ '-' := by
  intro c hc he
  have hd := List.all_eq_true.mp h c hc
  subst he
  simp at hd

theorem pad4_digits {n : Nat} (h : n ≤ 9999) : (pad4 n).all Char.isDigit = true := by
  have b1 : n / 1000 < 10 := by omega
  have b2 : n / 100 % 10 < 10 := by omega
  have b3 : n / 10 % 10 < 10 := by omega
  have b4 : n % 10 < 10 := by omega
  simp [pad4, digit_isDigit, b1, b2, b3, b4]

theorem pad2_digits {n : Nat} (h : n ≤ 99) : (pad2 n).all Char.isDigit = true := by
  unfold pad2
  split
  · simp [digit_isDigit, *]
  · have b1 : n / 10 < 10 := by omega
    have b2 : n % 10 < 10 := by omega
    simp [digit_isDigit, b1, b2]

theorem pad2_length (n : Nat) : (pad2 n).length = 2 := by
  unfold pad2
  split <;> rfl

theorem natOfDigits_pad4 {n : Nat} (h : n ≤ 9999) : natOfDigits (pad4 n) = n := by
  have b1 : n / 1000 < 10 := by omega
  have b2 : n / 100 % 10 < 10 := by omega
  have b3 : n / 10 % 10 < 10 := by omega
  have b4 : n % 10 < 10 := by omega
  simp only [pad4, natOfDigits, List.foldl, digit_val, b1, b2, b3, b4]
  omega

theorem natOfDigits_pad2 {n : Nat} (h : n ≤ 99) : natOfDigits (pad2 n) = n := by
  unfold pad2
  rcases Nat.lt_or_ge n 10 with h10 | h10
  · rw [if_pos h10]
    have h0 : ('0'.toNat - 48) = 0 := rfl
    simp only [natOfDigits, List.foldl, h0, digit_val h10]
    omega
  · rw [if_neg (by omega)]
    have b1 : n / 10 < 10 := by omega
    have b2 : n % 10 < 10 := by omega
    simp only [natOfDigits, List.foldl, digit_val b1, digit_val b2]
    omega

theorem splitOnChar_no_sep {sep : Char} {A : List Char} (h : ∀ c ∈ A, c ≠ sep) :
    splitOnChar sep A = [A] := by
  induction A with
  | nil => rfl
  | cons a t ih =>
    have ha : a ≠ sep := h a (by simp)
    have ht : ∀ c ∈ t, c ≠ sep := fun c hc => h c (by simp [hc])
    simp [splitOnChar, ha, ih ht]

theorem splitOnChar_append {sep : Char} {A : List Char} (rest : List Char)
    (h : ∀ c ∈ A, c ≠ sep) :
    splitOnChar sep (A ++ sep :: rest) = A :: splitOnChar sep rest := by
  induction A with
  | nil => simp [splitOnChar]
  | cons a t ih =>
    have ha : a ≠ sep := h a (by simp)
    have ht : ∀ c ∈ t, c ≠ sep := fun c hc => h c (by simp [hc])
    simp [splitOnChar, ha, ih ht]

theorem parseYMD_render (y m d : Nat) (hy1 : 1 ≤ y) (hy2 : y ≤ 9999)
    (hm1 : 1 ≤ m) (hm2 : m ≤ 12) (hd1 : 1 ≤ d) (hd2 : d ≤ daysInMonth y m) :
    parseYMD (renderYMD y m d) = some (y, m, d) := by
  have hm99 : m ≤ 99 := by omega
  have hd99 : d ≤ 99 := by
    have : daysInMonth y m ≤ 31 := by
      unfold daysInMonth
      split_ifs <;> omega
    omega
  have hy4 := pad4_digits hy2
  have hmm := pad2_digits hm99
  have hdd := pad2_digits hd99
  have hsplit : splitOnChar '-' (pad4 y ++ '-' :: (pad2 m ++ '-' :: pad2 d))
      = [pad4 y, pad2 m, pad2 d] := by
    rw [splitOnChar_append _ (all_digits_no_dash hy4),
      splitOnChar_append _ (all_digits_no_dash hmm),
      splitOnChar_no_sep (all_digits_no_dash hdd)]
  have hdata : (renderYMD y m d).data = pad4 y ++ '-' :: (pad2 m ++ '-' :: pad2 d) := rfl
  have hstep : parseYMD (renderYMD y m d) = checkYMD (pad4 y) (pad2 m) (pad2 d) := by
    unfold parseYMD
    rw [hdata, hsplit]
  rw [hstep]
  unfold checkYMD
  rw [if_pos ⟨rfl, hy4, Or.inr (pad2_length m), hmm, Or.inr (pad2_length d), hdd⟩]
  rw [natOfDigits_pad4 hy2, natOfDigits_pad2 hm99, natOfDigits_pad2 hd99]
  rw [if_pos ⟨hy1, hm1, hm2, hd1, hd2⟩]

/-- C7: for every date that parses as `YYYY-MM-DD` the prettifier emits
`"{MonthName} {Day}, {Year}"` with the day (and year) printed without
leading zeros — stated on the canonical rendering of every valid
(year, month, day) triple —, and every string on which the parse fails is
returned unchanged, without raising. -/
theorem date_prettifier_correct (y m d : Nat) (s : String)
    (hy1 : 1 ≤ y) (hy2 : y ≤ 9999) (hm1 : 1 ≤ m) (hm2 : m ≤ 12)
    (hd1 : 1 ≤ d) (hd2 : d ≤ daysInMonth y m) (hs : parseYMD s = none) :
    prettify_date (renderYMD y m d)
      = monthName m ++ " " ++ Nat.repr d ++ ", " ++ Nat.repr y
    ∧ prettify_date s = s := by
  constructor
  · unfold prettify_date
    rw [parseYMD_render y m d hy1 hy2 hm1 hm2 hd1 hd2]
  · unfold prettify_date
    rw [hs]

/-- Witness for `date_prettifier_correct`: December 9, 2025 and the
malformed input "hello". -/
theorem date_prettifier_correct_wit :
    prettify_date (renderYMD 2025 12 9)
      = monthName 12 ++ " " ++ Nat.repr 9 ++ ", " ++ Nat.repr 2025
    ∧ prettify_date "hello" = "hello" :=
  date_prettifier_correct 2025 12 9 "hello" (by decide) (by decide) (by decide)
    (by decide) (by decide) (by decide) rfl

-- ------------------------------------------------------------------
-- C3 and C9: pipeline result shape
-- ------------------------------------------------------------------

theorem fetch_shape (a : Option String) (out : HttpOutcome) :
    (∃ e, fetch_weather a out = (none, some e))
    ∨ (∃ w, fetch_weather a out = (some w, none))
    ∨ (fetch_weather a out = (none, none) ∧ out = .resp 200 (some .null)) := by
  cases hk : api_key_set a
  · exact Or.inl ⟨.str config_error_msg, by simp [fetch_weather, hk]⟩
  · cases out with
    | exc cause =>
      exact Or.inl ⟨.str ("Network error while contacting weather service: " ++ cause),
        by simp [fetch_weather, hk]⟩
    | resp status body =>
      by_cases hs : status = 200
      · subst hs
        cases body with
        | none =>
          exact Or.inl ⟨.str "Failed to parse response from weather service.",
            by simp [fetch_weather, hk]⟩
        | some j =>
          cases j with
          | null => exact Or.inr (Or.inr ⟨by simp [fetch_weather, hk, json_to_py], rfl⟩)
          | bool b => exact Or.inr (Or.inl ⟨.bool b, by simp [fetch_weather, hk, json_to_py]⟩)
          | num lit => exact Or.inr (Or.inl ⟨.num lit, by simp [fetch_weather, hk, json_to_py]⟩)
          | str s => exact Or.inr (Or.inl ⟨.str s, by simp [fetch_weather, hk, json_to_py]⟩)
          | arr xs => exact Or.inr (Or.inl ⟨.arr xs, by simp [fetch_weather, hk, json_to_py]⟩)
          | obj gs => exact Or.inr (Or.inl ⟨.obj gs, by simp [fetch_weather, hk, json_to_py]⟩)
      · exact Or.inl ⟨extract_error body status, by simp [fetch_weather, hk, hs]⟩

theorem index_post_shape (a : Option String) (out : HttpOutcome) (ts1 ts2 : String)
    (loc dso : Option String) (ctx : TemplateCtx)
    (h : index a out ts1 ts2 ⟨true, loc, dso⟩ = .ok ctx) :
    ctx.days = (pyInt (dso.getD "5")).getD 5
    ∧ ((∃ e, ctx.weather = none ∧ ctx.error = some e)
      ∨ (∃ w, ctx.weather = some w ∧ ctx.error = none)
      ∨ (ctx.weather = none ∧ ctx.error = none ∧ out = .resp 200 (some .null))) := by
  simp only [index] at h
  split at h
  · rename_i hc
    simp at hc
  · split at h
    · cases h
      exact ⟨rfl, Or.inl ⟨.str validation_error_msg, rfl, rfl⟩⟩
    · rcases fetch_shape a out with ⟨e, hf⟩ | ⟨w, hf⟩ | ⟨hf, hout⟩
      · rw [hf] at h
        simp only [handle_fetch] at h
        cases h
        exact ⟨rfl, Or.inl ⟨e, rfl, rfl⟩⟩
      · rw [hf] at h
        simp only [handle_fetch] at h
        split at h
        · rcases ha : attach_charts_to_forecast w with e2 | w2 <;> rw [ha] at h
          · simp [except_bind_error] at h
          · simp only [except_bind_ok] at h
            rcases hc2 : pyGetE w2 "current" (.obj []) with e3 | cur <;> rw [hc2] at h
            · simp [except_bind_error] at h
            · simp only [except_bind_ok] at h
              rcases hb : derive_bg_class cur with e4 | bg <;> rw [hb] at h
              · simp [except_bind_error] at h
              · simp only [except_bind_ok] at h
                cases h
                exact ⟨rfl, Or.inr (Or.inl ⟨w2, rfl, rfl⟩)⟩
        · cases h
          exact ⟨rfl, Or.inr (Or.inl ⟨w, rfl, rfl⟩)⟩
      · rw [hf] at h
        simp only [handle_fetch] at h
        cases h
        exact ⟨rfl, Or.inr (Or.inr ⟨rfl, rfl, hout⟩)⟩

/-- C3 (corrected), counterexample: a submission whose fetch succeeds with
status 200 and the JSON body `null` produces a pipeline result in which
the forecast AND the error are both absent. -/
theorem pipeline_exactly_one_cex :
    index (some "k") (.resp 200 (some .null)) "T" "T" ⟨true, some "Seattle", some "5"⟩
      = .ok ⟨"Seattle", none, none, 5, "default", "T"⟩
    ∧ (⟨"Seattle", none, none, 5, "default", "T"⟩ : TemplateCtx).weather.isSome = false
    ∧ (⟨"Seattle", none, none, 5, "default", "T"⟩ : TemplateCtx).error.isSome = false :=
  ⟨rfl, rfl, rfl⟩

/-- C3 (amended): every produced pipeline result of a submission carries at
most one of \x7bforecast, error\x7d, and exactly one unless the fetch returned
success status 200 with the JSON body `null` (Python `None`), in which
case both are absent (the initial GET likewise renders with both absent). -/
theorem pipeline_exactly_one (a : Option String) (out : HttpOutcome) (ts1 ts2 : String)
    (loc dso : Option String) (ctx : TemplateCtx)
    (h : index a out ts1 ts2 ⟨true, loc, dso⟩ = .ok ctx) :
    ¬(ctx.weather.isSome = true ∧ ctx.error.isSome = true)
    ∧ (out ≠ .resp 200 (some .null) →
        (ctx.weather.isSome = true ↔ ctx.error.isSome = false)) := by
  rcases (index_post_shape a out ts1 ts2 loc dso ctx h).2 with
    ⟨e, hw, he⟩ | ⟨w, hw, he⟩ | ⟨hw, he, hout⟩
  · constructor
    · rintro ⟨h1, _⟩
      rw [hw] at h1
      simp at h1
    · intro _
      rw [hw, he]
      simp
  · constructor
    · rintro ⟨_, h2⟩
      rw [he] at h2
      simp at h2
    · intro _
      rw [hw, he]
      simp
  · constructor
    · rintro ⟨h1, _⟩
      rw [hw] at h1
      simp at h1
    · intro hne
      exact absurd hout hne

/-- Witness for `pipeline_exactly_one`: a submission failing with a network
exception produces error-only output. -/
theorem pipeline_exactly_one_wit :
    ¬((⟨"S", none, some (.str "Network error while contacting weather service: boom"),
        5, "default", "T"⟩ : TemplateCtx).weather.isSome = true
      ∧ (⟨"S", none, some (.str "Network error while contacting weather service: boom"),
        5, "default", "T"⟩ : TemplateCtx).error.isSome = true)
    ∧ (HttpOutcome.exc "boom" ≠ .resp 200 (some .null) →
        ((⟨"S", none, some (.str "Network error while contacting weather service: boom"),
          5, "default", "T"⟩ : TemplateCtx).weather.isSome = true
        ↔ (⟨"S", none, some (.str "Network error while contacting weather service: boom"),
          5, "default", "T"⟩ : TemplateCtx).error.isSome = false)) :=
  pipeline_exactly_one (some "k") (.exc "boom") "T" "T" (some "S") (some "5")
    ⟨"S", none, some (.str "Network error while contacting weather service: boom"),
      5, "default", "T"⟩ rfl

/-- C9: a day-count form input that does not parse as an integer behaves
exactly like the default "5" — the whole pipeline result is the same as
with input "5" — and every produced result uses the effective day count 5;
the bad count itself never fails the request. -/
theorem day_count_default (a : Option String) (out : HttpOutcome) (ts1 ts2 : String)
    (loc : Option String) (ds : String) (h : pyInt ds = none) :
    index a out ts1 ts2 ⟨true, loc, some ds⟩ = index a out ts1 ts2 ⟨true, loc, some "5"⟩
    ∧ (∀ ctx, index a out ts1 ts2 ⟨true, loc, some ds⟩ = .ok ctx → ctx.days = 5) := by
  have hp5 : pyInt "5" = some (5 : Int) := rfl
  constructor
  · simp [index, h, hp5]
  · intro ctx hctx
    have hd := (index_post_shape a out ts1 ts2 loc (some ds) ctx hctx).1
    rw [hd]
    simp [h]

/-- Witness for `day_count_default` at the unparseable count "abc". -/
theorem day_count_default_wit :
    index (some "k") (.exc "x") "T" "T" ⟨true, some "S", some "abc"⟩
      = index (some "k") (.exc "x") "T" "T" ⟨true, some "S", some "5"⟩
    ∧ (∀ ctx, index (some "k") (.exc "x") "T" "T" ⟨true, some "S", some "abc"⟩
        = .ok ctx → ctx.days = 5) :=
  day_count_default (some "k") (.exc "x") "T" "T" (some "S") "abc" rfl

end WApp
